import Mathlib

/-!
Verification of the co2mond daemon core (src/co2mond/src/main.c) against its
specification.  The device loop, cache, sink dispatch, heartbeat, frame
validation and reconnection supervisor are embedded shallowly: external
effects (HTTP posts, file writes, device reads, device opens) are supplied
as explicit outcome parameters, and the observable actions of the code are
collected as event traces.
-/

namespace Co2mon

/-- Metric code for ambient temperature, CODE_TAMB in main.c. -/
def CODE_TAMB : Fin 256 := 0x42

/-- Metric code for CO2 concentration, CODE_CNTR in main.c. -/
def CODE_CNTR : Fin 256 := 0x50

/-- The cache co2mon_data maps a single-byte code to the last committed
16-bit raw value (stored as Nat, always below 65536). -/
def Cache : Type := Fin 256 → Nat

/-- Initial contents of the cache: co2mon_data is a global array of
uint16_t, zero-initialized. -/
def co2mon_data_init : Cache := fun _ => 0

/-- Assignment co2mon_data[k] = v. -/
def Cache.set (c : Cache) (k : Fin 256) (v : Nat) : Cache :=
  fun j => if j = k then v else c j

/-- The five bytes of a raw frame that device_loop inspects; each is an
unsigned char, hence Fin 256. -/
structure Frame where
  b0 : Fin 256
  b1 : Fin 256
  b2 : Fin 256
  b3 : Fin 256
  b4 : Fin 256
deriving DecidableEq

/-- Outcome of validating one frame in device_loop: either a diagnostic
rejection or a decoded reading. -/
inductive Decoded where
  | badSentinel (b4 : Fin 256)
  | badChecksum (want got : Fin 256)
  | reading (code : Fin 256) (w : Nat)
deriving DecidableEq

/-- checksum = r0 + r1 + r2 computed in an unsigned char, so addition
wraps modulo 256; Fin 256 addition has exactly that semantics. -/
def frameChecksum (f : Frame) : Fin 256 := f.b0 + f.b1 + f.b2

/-- The 16-bit raw value w = (result[1] << 8) + result[2]. -/
def frameWord (f : Frame) : Nat := (f.b1 : Nat) * 256 + (f.b2 : Nat)

/-- Frame validation as performed at the top of the read loop in
device_loop: the sentinel byte result[4] is checked first, then the
checksum is compared against result[3]; only then is a reading produced. -/
def decodeFrame (f : Frame) : Decoded :=
  if f.b4 ≠ (0x0d : Fin 256) then Decoded.badSentinel f.b4
  else if frameChecksum f ≠ f.b3 then Decoded.badChecksum (frameChecksum f) f.b3
  else Decoded.reading f.b0 (frameWord f)

/-- Decoded values that device_loop logs and skips. -/
def Decoded.isMalformed : Decoded → Bool
  | Decoded.reading _ _ => false
  | _ => true

/-- The configuration flags of main.c that the device loop consults;
influx_db and datadir record whether the telemetry database and the data
directory were configured (non-null pointers). -/
structure Config where
  daemonize : Bool
  print_unknown : Bool
  influx_db : Bool
  datadir : Bool
deriving DecidableEq

/-- External outcomes feeding one iteration of the reading switch:
httpOk is the outcome of the HTTP exchange performed by post_http,
indet is the truthiness of the indeterminate value actually returned by
the influx writers (see write_temperature_influx below), and fileOk is
the outcome of the open and write_data sequence when a data directory is
configured. -/
structure StepOracle where
  indet : Bool
  httpOk : Bool
  fileOk : Bool
deriving DecidableEq

/-- Model of write_value (main.c lines 103-124): when no data directory
is configured it immediately reports success and performs no file
operation; otherwise it opens and writes the file, and the combined
outcome of open, lock, truncate and write is the external result fileOk.
Returns (reported success, whether a file operation was performed). -/
def write_value (datadir : Bool) (fileOk : Bool) : Bool × Bool :=
  if datadir then (fileOk, true) else (true, false)

/-- Model of write_temperature_influx (main.c lines 126-140): the body
posts the point with post_http and then falls off the end of a non-void
int function, so the int it returns is an indeterminate value unrelated
to the outcome of the HTTP exchange.  The parameter indet stands for the
truthiness of that indeterminate value and httpOk for the HTTP outcome;
the function returns the value the caller observes. -/
def write_temperature_influx (indet : Bool) (_httpOk : Bool) : Bool := indet

/-- Model of write_co2_influx (main.c lines 142-156): same shape as
write_temperature_influx, and the same missing return statement. -/
def write_co2_influx (indet : Bool) (_httpOk : Bool) : Bool := indet

/-- The success value reported to device_loop by the sink write it
attempts: the observed return of an influx writer when the telemetry
sink is active, the return of write_value otherwise. -/
def sinkReport (cfg : Config) (o : StepOracle) : Bool :=
  if cfg.influx_db then write_temperature_influx o.indet o.httpOk
  else (write_value cfg.datadir o.fileOk).1

/-- The two metrics device_loop dispatches. -/
inductive Metric where
  | tamb
  | cntr
deriving DecidableEq

/-- Observable actions of one pass through the reading switch and the
surrounding loop. -/
inductive Event where
  | echo (m : Metric) (w : Nat)
  | dispatchInflux (m : Metric) (w : Nat)
  | dispatchFile (m : Metric) (w : Nat)
  | heartbeat
  | printUnknown (code : Fin 256) (w : Nat)
  | logBadSentinel (b : Fin 256)
  | logBadChecksum (want got : Fin 256)
  | logTransportError
  | logMagicFail
deriving DecidableEq

/-- Events that are sink-write attempts. -/
def Event.isDispatch : Event → Bool
  | Event.dispatchInflux _ _ => true
  | Event.dispatchFile _ _ => true
  | _ => false

/-- Whether a trace contains a sink-write attempt. -/
def hasDispatch (evs : List Event) : Bool := evs.any Event.isDispatch

/-- The change-detection and dispatch block shared by the TAMB and CNTR
cases of device_loop (lines 219-238 and 259-279): if the raw value
differs from the cache entry, attempt the sink write selected by the
configuration, and commit the cache entry exactly when that write
reports success. -/
def dispatchStep (cfg : Config) (o : StepOracle) (cache : Cache) (r0 : Fin 256)
    (w : Nat) (m : Metric) : Cache × List Event :=
  if cache r0 ≠ w then
    if cfg.influx_db then
      (if (match m with
           | Metric.tamb => write_temperature_influx o.indet o.httpOk
           | Metric.cntr => write_co2_influx o.indet o.httpOk) then
         Cache.set cache r0 w
       else cache,
       [Event.dispatchInflux m w])
    else
      (if (write_value cfg.datadir o.fileOk).1 then Cache.set cache r0 w else cache,
       [Event.dispatchFile m w])
  else (cache, [])

/-- One pass through the switch on the code byte r0 in device_loop
(lines 208-294): console echo, range filter for CNTR, change-detection
dispatch, heartbeat when the telemetry sink is inactive, and the
unconditional cache update in the default case. -/
def processReading (cfg : Config) (o : StepOracle) (cache : Cache) (r0 : Fin 256)
    (w : Nat) : Cache × List Event :=
  if r0 = CODE_TAMB then
    let d := dispatchStep cfg o cache r0 w Metric.tamb
    (d.1,
     (if cfg.daemonize then [] else [Event.echo Metric.tamb w]) ++ d.2 ++
       (if cfg.influx_db then [] else [Event.heartbeat]))
  else if r0 = CODE_CNTR then
    if 3000 < w then (cache, [])
    else
      let d := dispatchStep cfg o cache r0 w Metric.cntr
      (d.1,
       (if cfg.daemonize then [] else [Event.echo Metric.cntr w]) ++ d.2 ++
         (if cfg.influx_db then [] else [Event.heartbeat]))
  else
    (Cache.set cache r0 w,
     if cfg.print_unknown && !cfg.daemonize then [Event.printUnknown r0 w] else [])

/-- Result of one device read: a non-positive return of co2mon_read_data,
or a frame. -/
inductive ReadResult where
  | err
  | frame (f : Frame)
deriving DecidableEq

/-- One read outcome together with the external sink outcomes the
resulting iteration would consume. -/
structure LoopInput where
  read : ReadResult
  o : StepOracle
deriving DecidableEq

/-- Whether a loop input is a failed read. -/
def LoopInput.isErr (i : LoopInput) : Bool :=
  match i.read with
  | ReadResult.err => true
  | ReadResult.frame _ => false

/-- Result of running the session loop on a finite schedule of reads:
final cache, emitted trace, and whether the loop exited through a failed
read (rather than the schedule running out). -/
structure LoopResult where
  cache : Cache
  events : List Event
  exited : Bool

/-- The read loop of device_loop (lines 178-295): a non-positive read
logs and breaks; a frame failing validation logs and continues with
nothing else done; a decoded reading is processed and the loop
continues. -/
def device_loop_go (cfg : Config) : List LoopInput → Cache → LoopResult
  | [], cache => ⟨cache, [], false⟩
  | i :: rest, cache =>
    match i.read with
    | ReadResult.err => ⟨cache, [Event.logTransportError], true⟩
    | ReadResult.frame f =>
      match decodeFrame f with
      | Decoded.badSentinel b =>
        let r := device_loop_go cfg rest cache
        ⟨r.cache, Event.logBadSentinel b :: r.events, r.exited⟩
      | Decoded.badChecksum c e =>
        let r := device_loop_go cfg rest cache
        ⟨r.cache, Event.logBadChecksum c e :: r.events, r.exited⟩
      | Decoded.reading code w =>
        let s := processReading cfg i.o cache code w
        let r := device_loop_go cfg rest s.1
        ⟨r.cache, s.2 ++ r.events, r.exited⟩

/-- device_loop (lines 166-296): the magic table is sent first; on
failure the session never enters the read loop. -/
def device_loop (cfg : Config) (magicOk : Bool) (ins : List LoopInput)
    (cache : Cache) : LoopResult :=
  if magicOk then device_loop_go cfg ins cache
  else ⟨cache, [Event.logMagicFail], false⟩

/-- Outcome of one attempt of open_device. -/
inductive OpenResult where
  | fail
  | ok
deriving DecidableEq

/-- Observable actions of the reconnection supervisor main_loop. -/
inductive SupEvent where
  | logUnableOpen
  | sleep1
  | session
deriving DecidableEq

/-- The reconnection supervisor main_loop (lines 308-334) run on a finite
schedule of open outcomes, carrying the error_shown flag: a failed open
logs only when the flag is clear, sets the flag, sleeps one unit and
retries; a successful open clears the flag and runs a session. -/
def main_loop (error_shown : Bool) : List OpenResult → List SupEvent
  | [] => []
  | OpenResult.fail :: rest =>
    (if error_shown then [] else [SupEvent.logUnableOpen]) ++
      SupEvent.sleep1 :: main_loop true rest
  | OpenResult.ok :: rest => SupEvent.session :: main_loop false rest

/-- The logging policy as the specification states it, tracking the
previous outcome: a failure emits the diagnostic only when it starts a
consecutive failure streak, that is when the previous outcome was not
itself a failure; every failure is followed by one unit of sleep and a
retry; a success runs a session and ends any streak. -/
def streakPolicy (prev : Option OpenResult) : List OpenResult → List SupEvent
  | [] => []
  | OpenResult.fail :: rest =>
    (if prev = some OpenResult.fail then [] else [SupEvent.logUnableOpen]) ++
      SupEvent.sleep1 :: streakPolicy (some OpenResult.fail) rest
  | OpenResult.ok :: rest =>
    SupEvent.session :: streakPolicy (some OpenResult.ok) rest

/-- decode_temperature (lines 63-67): w * 0.0625 - 273.15, modelled over
the exact rationals (0.0625 is exactly representable in a double and the
products are exact; the one inexact constant and the single rounded
subtraction stay within 1e-12 of the exact value, far inside the 5e-5
needed to change a 4-decimal rendering). -/
def decode_temperature (w : Nat) : ℚ := (w : ℚ) * 0.0625 - 273.15

/-- Four fractional digits with leading zeros. -/
def pad4 (n : Nat) : String :=
  if n < 10 then "000" ++ toString n
  else if n < 100 then "00" ++ toString n
  else if n < 1000 then "0" ++ toString n
  else toString n

/-- Round a rational to the nearest integer (halves upward, which never
arises on the exact-decimal arguments used here): the floor of q + 1/2,
computed on the numerator and denominator with floor division. -/
def roundQ (q : ℚ) : Int := (2 * q.num + (q.den : Int)) / (2 * (q.den : Int))

/-- Rendering with the printf format %.4f as applied to these exact
decimal arguments: round to the nearest multiple of 1/10000 and print
the sign, the integer part and exactly four fractional digits. -/
def fmtF4 (q : ℚ) : String :=
  let n : Int := roundQ (q * 10000)
  (if n < 0 then "-" else "") ++ toString (n.natAbs / 10000) ++ "." ++
    pad4 (n.natAbs % 10000)

/-! Helper lemmas about the dispatch block and the reading switch. -/

theorem dispatchStep_eq (cfg : Config) (o : StepOracle) (cache : Cache) (r0 : Fin 256)
    (w : Nat) (m : Metric) :
    dispatchStep cfg o cache r0 w m =
      if cache r0 ≠ w then
        ((if sinkReport cfg o then Cache.set cache r0 w else cache),
         [if cfg.influx_db then Event.dispatchInflux m w else Event.dispatchFile m w])
      else (cache, []) := by
  cases m <;>
    simp only [dispatchStep, sinkReport, write_temperature_influx, write_co2_influx] <;>
    split_ifs <;> simp_all

theorem hasDispatch_dispatchStep (cfg : Config) (o : StepOracle) (cache : Cache)
    (r0 : Fin 256) (w : Nat) (m : Metric) :
    (hasDispatch (dispatchStep cfg o cache r0 w m).2 = true) ↔ cache r0 ≠ w := by
  rw [dispatchStep_eq]
  split_ifs with h h2 <;> simp_all [hasDispatch, Event.isDispatch]

theorem processReading_tamb (cfg : Config) (o : StepOracle) (cache : Cache) (w : Nat) :
    processReading cfg o cache CODE_TAMB w =
      ((dispatchStep cfg o cache CODE_TAMB w Metric.tamb).1,
       (if cfg.daemonize then [] else [Event.echo Metric.tamb w]) ++
         (dispatchStep cfg o cache CODE_TAMB w Metric.tamb).2 ++
         (if cfg.influx_db then [] else [Event.heartbeat])) := by
  simp [processReading]

theorem processReading_cntr (cfg : Config) (o : StepOracle) (cache : Cache) (w : Nat)
    (hr : w ≤ 3000) :
    processReading cfg o cache CODE_CNTR w =
      ((dispatchStep cfg o cache CODE_CNTR w Metric.cntr).1,
       (if cfg.daemonize then [] else [Event.echo Metric.cntr w]) ++
         (dispatchStep cfg o cache CODE_CNTR w Metric.cntr).2 ++
         (if cfg.influx_db then [] else [Event.heartbeat])) := by
  have hne : ¬ (CODE_CNTR = CODE_TAMB) := by decide
  have hr2 : ¬ 3000 < w := by omega
  simp [processReading, hne, hr2]

theorem processReading_eligible_spec (cfg : Config) (o : StepOracle) (cache : Cache)
    (r0 : Fin 256) (w : Nat) (m : Metric)
    (he : (r0 = CODE_TAMB ∧ m = Metric.tamb) ∨
          (r0 = CODE_CNTR ∧ w ≤ 3000 ∧ m = Metric.cntr)) :
    (processReading cfg o cache r0 w).1 = (dispatchStep cfg o cache r0 w m).1 ∧
    (hasDispatch (processReading cfg o cache r0 w).2 =
      hasDispatch (dispatchStep cfg o cache r0 w m).2) ∧
    (Event.heartbeat ∈ (processReading cfg o cache r0 w).2 ↔ cfg.influx_db = false) := by
  have key : processReading cfg o cache r0 w =
      ((dispatchStep cfg o cache r0 w m).1,
       (if cfg.daemonize then [] else [Event.echo m w]) ++
         (dispatchStep cfg o cache r0 w m).2 ++
         (if cfg.influx_db then [] else [Event.heartbeat])) := by
    rcases he with ⟨h1, h2⟩ | ⟨h1, h2, h3⟩
    · subst h1; subst h2; exact processReading_tamb cfg o cache w
    · subst h1; subst h3; exact processReading_cntr cfg o cache w h2
  rw [key]
  refine ⟨rfl, ?_, ?_⟩
  · simp only [hasDispatch, List.any_append]
    rw [dispatchStep_eq]
    split_ifs <;> simp_all [Event.isDispatch, hasDispatch]
  · rw [dispatchStep_eq]
    split_ifs <;> simp_all

theorem heartbeat_not_in_influx (cfg : Config) (o : StepOracle) (cache : Cache)
    (r0 : Fin 256) (w : Nat) (hi : cfg.influx_db = true) :
    Event.heartbeat ∉ (processReading cfg o cache r0 w).2 := by
  simp only [processReading]
  rw [dispatchStep_eq, dispatchStep_eq]
  split_ifs <;> simp_all

theorem step_invariant_aux (cfg : Config) (o : StepOracle) (cache : Cache)
    (r0 : Fin 256) (w : Nat) (m : Metric)
    (he : (r0 = CODE_TAMB ∧ m = Metric.tamb) ∨
          (r0 = CODE_CNTR ∧ w ≤ 3000 ∧ m = Metric.cntr)) :
    ((hasDispatch (processReading cfg o cache r0 w).2 = true) ↔ cache r0 ≠ w) ∧
    (cache r0 = w → (processReading cfg o cache r0 w).1 = cache) ∧
    (cache r0 ≠ w →
      (((processReading cfg o cache r0 w).1 r0 = w) ↔ sinkReport cfg o = true) ∧
      (sinkReport cfg o = false → (processReading cfg o cache r0 w).1 = cache)) := by
  obtain ⟨hfst, hdisp, _⟩ := processReading_eligible_spec cfg o cache r0 w m he
  refine ⟨?_, ?_, ?_⟩
  · rw [hdisp]; exact hasDispatch_dispatchStep cfg o cache r0 w m
  · intro hch
    rw [hfst, dispatchStep_eq, if_neg (not_not_intro hch)]
  · intro hch
    rw [hfst, dispatchStep_eq, if_pos hch]
    constructor
    · by_cases hs : sinkReport cfg o = true
      · rw [if_pos hs]; simp [Cache.set, hs]
      · rw [if_neg hs]; exact iff_of_false hch hs
    · intro hs
      rw [if_neg (by simp [hs])]

theorem roundQ_intCast (n : Int) : roundQ ((n : ℚ)) = n := by
  simp only [roundQ, Rat.num_intCast, Rat.den_intCast]
  omega

theorem main_loop_eq_streakPolicy_aux (outs : List OpenResult) :
    ∀ (shown : Bool) (prev : Option OpenResult),
      (shown = true ↔ prev = some OpenResult.fail) →
      main_loop shown outs = streakPolicy prev outs := by
  induction outs with
  | nil => intro shown prev h; rfl
  | cons head tail ih =>
    intro shown prev h
    cases head
    case fail =>
      have hpre : (if shown = true then ([] : List SupEvent) else [SupEvent.logUnableOpen])
          = (if prev = some OpenResult.fail then [] else [SupEvent.logUnableOpen]) := by
        by_cases hp : prev = some OpenResult.fail
        · rw [if_pos (h.mpr hp), if_pos hp]
        · rw [if_neg (fun hs => hp (h.mp hs)), if_neg hp]
      simp only [main_loop, streakPolicy, hpre,
        ih true (some OpenResult.fail) (by simp)]
    case ok =>
      simp only [main_loop, streakPolicy, ih false (some OpenResult.ok) (by simp)]

theorem device_loop_go_exited (cfg : Config) (ins : List LoopInput) :
    ∀ cache, (device_loop_go cfg ins cache).exited = ins.any LoopInput.isErr := by
  induction ins with
  | nil => intro cache; rfl
  | cons i rest ih =>
    intro cache
    obtain ⟨r, o⟩ := i
    cases r with
    | err => simp [device_loop_go, LoopInput.isErr]
    | frame f =>
      rcases hd : decodeFrame f with b | ⟨c, e⟩ | ⟨code, w⟩ <;>
        simp [device_loop_go, hd, LoopInput.isErr, ih]

end Co2mon

namespace Co2mon

/-- C1: for a decoded reading with code TAMB, or with code CNTR and an
in-range raw value, device_loop attempts a sink write exactly when the
raw 16-bit value differs from the cache entry for that code; on a
changed reading the cache entry becomes the new raw value exactly when
the attempted sink write reports success, a reported failure leaves the
whole cache unchanged, and a subsequent reading with the same raw value
attempts the write again. -/
theorem dedup_dispatch_invariant (cfg : Config) (o o2 : StepOracle) (cache : Cache)
    (r0 : Fin 256) (w : Nat)
    (he : r0 = CODE_TAMB ∨ (r0 = CODE_CNTR ∧ w ≤ 3000)) :
    ((hasDispatch (processReading cfg o cache r0 w).2 = true) ↔ cache r0 ≠ w) ∧
    (cache r0 ≠ w →
      (((processReading cfg o cache r0 w).1 r0 = w) ↔ sinkReport cfg o = true) ∧
      (sinkReport cfg o = false →
        (processReading cfg o cache r0 w).1 = cache ∧
        hasDispatch (processReading cfg o2 (processReading cfg o cache r0 w).1 r0 w).2
          = true)) := by
  have hel : ∃ m : Metric,
      (r0 = CODE_TAMB ∧ m = Metric.tamb) ∨
      (r0 = CODE_CNTR ∧ w ≤ 3000 ∧ m = Metric.cntr) := by
    rcases he with h | ⟨h1, h2⟩
    · exact ⟨Metric.tamb, Or.inl ⟨h, rfl⟩⟩
    · exact ⟨Metric.cntr, Or.inr ⟨h1, h2, rfl⟩⟩
  obtain ⟨m, hm⟩ := hel
  obtain ⟨ha, -, hc⟩ := step_invariant_aux cfg o cache r0 w m hm
  refine ⟨ha, fun hch => ?_⟩
  obtain ⟨hiff, hfail⟩ := hc hch
  refine ⟨hiff, fun hs => ?_⟩
  have hunch := hfail hs
  refine ⟨hunch, ?_⟩
  rw [hunch]
  exact ((step_invariant_aux cfg o2 cache r0 w m hm).1).mpr hch

/-- C1 witness: console configuration, first TAMB reading of raw 100 is
dispatched. -/
theorem dedup_dispatch_invariant_witness :
    hasDispatch (processReading ⟨false, false, false, false⟩ ⟨true, true, true⟩
      co2mon_data_init CODE_TAMB 100).2 = true :=
  (dedup_dispatch_invariant ⟨false, false, false, false⟩ ⟨true, true, true⟩
    ⟨true, true, true⟩ co2mon_data_init CODE_TAMB 100 (Or.inl rfl)).1.mpr (by decide)

/-- C2: write_temperature_influx and write_co2_influx fall off the end
of a non-void function, so the value they return does not depend on the
outcome of the HTTP post; in particular, with a truthy indeterminate
value they report success even when the post failed.  This refutes the
stated contract that success is returned exactly when the HTTP exchange
succeeds. -/
theorem influx_write_return_ignores_http :
    ∀ indet h1 h2 : Bool,
      write_temperature_influx indet h1 = write_temperature_influx indet h2 ∧
      write_co2_influx indet h1 = write_co2_influx indet h2 ∧
      write_temperature_influx true false = true ∧
      write_co2_influx true false = true :=
  fun _ _ _ => ⟨rfl, rfl, rfl, rfl⟩

/-- C3: a frame whose byte 4 differs from 0x0d is rejected regardless of
the checksum; with byte 4 equal to 0x0d, the checksum computed by the
code equals the 8-bit wraparound sum of bytes 0..2, the frame is
accepted as a reading when byte 3 equals that sum modulo 256, and is
rejected as malformed for any other byte 3. -/
theorem frame_validation (f : Frame) :
    ((f.b4 : Nat) ≠ 0x0d → decodeFrame f = Decoded.badSentinel f.b4) ∧
    ((f.b4 : Nat) = 0x0d →
      ((frameChecksum f : Nat) = ((f.b0 : Nat) + (f.b1 : Nat) + (f.b2 : Nat)) % 256) ∧
      (((f.b0 : Nat) + (f.b1 : Nat) + (f.b2 : Nat)) % 256 = (f.b3 : Nat) →
        decodeFrame f = Decoded.reading f.b0 (frameWord f)) ∧
      (((f.b0 : Nat) + (f.b1 : Nat) + (f.b2 : Nat)) % 256 ≠ (f.b3 : Nat) →
        decodeFrame f = Decoded.badChecksum (frameChecksum f) f.b3 ∧
        (decodeFrame f).isMalformed = true)) := by
  have hcs : (frameChecksum f : Nat)
      = ((f.b0 : Nat) + (f.b1 : Nat) + (f.b2 : Nat)) % 256 := by
    simp [frameChecksum, Fin.add_def, Nat.mod_add_mod]
  constructor
  · intro h
    have h4 : f.b4 ≠ (0x0d : Fin 256) := fun hh => h (by rw [hh]; decide)
    simp [decodeFrame, h4]
  · intro h
    have h4 : f.b4 = (0x0d : Fin 256) := Fin.ext (by rw [h]; decide)
    refine ⟨hcs, ?_, ?_⟩
    · intro hok
      have h3 : frameChecksum f = f.b3 := Fin.ext (by rw [hcs, hok])
      simp [decodeFrame, h4, h3]
    · intro hbad
      have h3 : frameChecksum f ≠ f.b3 := fun hh => hbad (by rw [← hcs, hh])
      constructor <;> simp [decodeFrame, h4, h3, Decoded.isMalformed]

/-- C3 witness: the frame 42 0c 0e 5c 0d carries a correct checksum and
decodes to a TAMB reading of raw 3086. -/
theorem frame_validation_witness :
    decodeFrame ⟨0x42, 0x0c, 0x0e, 0x5c, 0x0d⟩ = Decoded.reading 0x42 3086 := by
  have h := ((frame_validation ⟨0x42, 0x0c, 0x0e, 0x5c, 0x0d⟩).2 (by decide)).2.1 (by decide)
  rw [h]; decide

/-- C4: a CNTR reading with raw value above 3000 is discarded with the
cache untouched and no action emitted at all; an in-range CNTR reading
whose raw value differs from the cache entry is dispatched. -/
theorem cntr_range_filter (cfg : Config) (o : StepOracle) (cache : Cache) (w : Nat) :
    (3000 < w → processReading cfg o cache CODE_CNTR w = (cache, [])) ∧
    (w ≤ 3000 → cache CODE_CNTR ≠ w →
      hasDispatch (processReading cfg o cache CODE_CNTR w).2 = true) := by
  constructor
  · intro h
    have hne : ¬ (CODE_CNTR = CODE_TAMB) := by decide
    simp [processReading, hne, h]
  · intro h1 h2
    exact ((step_invariant_aux cfg o cache CODE_CNTR w Metric.cntr
      (Or.inr ⟨rfl, h1, rfl⟩)).1).mpr h2

/-- C4 witness: raw 3001 is discarded outright; raw 3000, differing from
the initial cache entry, is dispatched. -/
theorem cntr_range_filter_witness :
    processReading ⟨false, false, false, false⟩ ⟨true, true, true⟩
        co2mon_data_init CODE_CNTR 3001 = (co2mon_data_init, []) ∧
    hasDispatch (processReading ⟨false, false, false, false⟩ ⟨true, true, true⟩
        co2mon_data_init CODE_CNTR 3000).2 = true :=
  ⟨(cntr_range_filter ⟨false, false, false, false⟩ ⟨true, true, true⟩
      co2mon_data_init 3001).1 (by decide),
   (cntr_range_filter ⟨false, false, false, false⟩ ⟨true, true, true⟩
      co2mon_data_init 3000).2 (by decide) (by decide)⟩

/-- C5: a heartbeat write follows every processed TAMB or in-range CNTR
reading, dispatched or suppressed alike, exactly when the telemetry sink
is not active; with the telemetry sink active no reading of any code
ever produces a heartbeat. -/
theorem heartbeat_gating (cfg : Config) (o : StepOracle) (cache : Cache)
    (r0 : Fin 256) (w : Nat) :
    ((r0 = CODE_TAMB ∨ (r0 = CODE_CNTR ∧ w ≤ 3000)) →
      (Event.heartbeat ∈ (processReading cfg o cache r0 w).2 ↔ cfg.influx_db = false)) ∧
    (cfg.influx_db = true → Event.heartbeat ∉ (processReading cfg o cache r0 w).2) := by
  constructor
  · intro he
    rcases he with h | ⟨h1, h2⟩
    · exact (processReading_eligible_spec cfg o cache r0 w Metric.tamb
        (Or.inl ⟨h, rfl⟩)).2.2
    · exact (processReading_eligible_spec cfg o cache r0 w Metric.cntr
        (Or.inr ⟨h1, h2, rfl⟩)).2.2
  · exact heartbeat_not_in_influx cfg o cache r0 w

/-- C5 witness: in console configuration a suppressed TAMB reading of
raw 0 still produces a heartbeat. -/
theorem heartbeat_gating_witness :
    Event.heartbeat ∈ (processReading ⟨false, false, false, false⟩ ⟨true, true, true⟩
      co2mon_data_init CODE_TAMB 0).2 :=
  ((heartbeat_gating ⟨false, false, false, false⟩ ⟨true, true, true⟩
    co2mon_data_init CODE_TAMB 0).1 (Or.inl rfl)).mpr rfl

/-- C6: every cache entry starts at 0, so the first TAMB or CNTR reading
carrying raw value 0 compares equal to the initial entry and is never
dispatched. -/
theorem initial_zero_reading_suppressed (cfg : Config) (o : StepOracle) (r0 : Fin 256)
    (he : r0 = CODE_TAMB ∨ r0 = CODE_CNTR) :
    (∀ c : Fin 256, co2mon_data_init c = 0) ∧
    hasDispatch (processReading cfg o co2mon_data_init r0 0).2 = false := by
  refine ⟨fun _ => rfl, ?_⟩
  have key : ∀ m : Metric,
      ((r0 = CODE_TAMB ∧ m = Metric.tamb) ∨
       (r0 = CODE_CNTR ∧ (0 : Nat) ≤ 3000 ∧ m = Metric.cntr)) →
      hasDispatch (processReading cfg o co2mon_data_init r0 0).2 = false := by
    intro m hm
    have h := (step_invariant_aux cfg o co2mon_data_init r0 0 m hm).1
    have hne : ¬ (hasDispatch (processReading cfg o co2mon_data_init r0 0).2 = true) := by
      rw [h]; simp [co2mon_data_init]
    simpa using hne
  rcases he with h | h
  · exact key Metric.tamb (Or.inl ⟨h, rfl⟩)
  · exact key Metric.cntr (Or.inr ⟨h, by omega, rfl⟩)

/-- C6 witness: the first TAMB reading of raw 0 is suppressed. -/
theorem initial_zero_reading_suppressed_witness :
    hasDispatch (processReading ⟨false, false, false, false⟩ ⟨true, true, true⟩
      co2mon_data_init CODE_TAMB 0).2 = false :=
  (initial_zero_reading_suppressed ⟨false, false, false, false⟩ ⟨true, true, true⟩
    CODE_TAMB (Or.inl rfl)).2

/-- C7: the reconnection supervisor, started with the failure-streak
flag clear, produces exactly the trace of the once-per-streak logging
policy: the diagnostic appears only on a failure that starts a
consecutive failure streak, every failure sleeps one unit and retries,
and a success runs a session and ends the streak. -/
theorem open_failure_logged_once_per_streak (outs : List OpenResult) :
    main_loop false outs = streakPolicy none outs :=
  main_loop_eq_streakPolicy_aux outs false none (by simp)

/-- C8: once the session loop is reading, it exits exactly when a read
returns a non-positive result, and a frame that fails validation only
prepends a diagnostic: the final cache, the exit behavior and the rest
of the trace are those of the loop without that frame, with no dispatch
from it. -/
theorem session_loop_exit_policy (cfg : Config) (ins : List LoopInput) (cache : Cache)
    (f : Frame) (o : StepOracle) (rest : List LoopInput)
    (hmal : (decodeFrame f).isMalformed = true) :
    ((device_loop cfg true ins cache).exited = ins.any LoopInput.isErr) ∧
    ((device_loop cfg true (⟨ReadResult.frame f, o⟩ :: rest) cache).cache =
      (device_loop cfg true rest cache).cache) ∧
    ((device_loop cfg true (⟨ReadResult.frame f, o⟩ :: rest) cache).exited =
      (device_loop cfg true rest cache).exited) ∧
    (∃ ev : Event, Event.isDispatch ev = false ∧
      (device_loop cfg true (⟨ReadResult.frame f, o⟩ :: rest) cache).events =
        ev :: (device_loop cfg true rest cache).events) := by
  have hdl : device_loop cfg true = device_loop_go cfg := rfl
  rw [hdl]
  refine ⟨device_loop_go_exited cfg ins cache, ?_⟩
  rcases hd : decodeFrame f with b | ⟨c2, e⟩ | ⟨code, w⟩
  · refine ⟨?_, ?_, Event.logBadSentinel b, rfl, ?_⟩ <;>
      simp [device_loop_go, hd]
  · refine ⟨?_, ?_, Event.logBadChecksum c2 e, rfl, ?_⟩ <;>
      simp [device_loop_go, hd]
  · rw [hd] at hmal; simp [Decoded.isMalformed] at hmal

/-- C8 witness: a frame with a bad sentinel leaves the final cache of a
one-read session equal to that of the empty session. -/
theorem session_loop_exit_policy_witness :
    (device_loop ⟨false, false, false, false⟩ true
        [⟨ReadResult.frame ⟨0x42, 0x0c, 0x0e, 0x5c, 0x0a⟩, ⟨true, true, true⟩⟩]
        co2mon_data_init).cache =
      (device_loop ⟨false, false, false, false⟩ true [] co2mon_data_init).cache :=
  (session_loop_exit_policy ⟨false, false, false, false⟩ [] co2mon_data_init
    ⟨0x42, 0x0c, 0x0e, 0x5c, 0x0a⟩ ⟨true, true, true⟩ [] (by decide)).2.1

/-- C9: the temperature derived from a TAMB raw value is
raw * 0.0625 - 273.15, and raw 3086 yields -80.275, rendered with four
decimal places as -80.2750. -/
theorem temperature_decode_and_format :
    (∀ w : Nat, decode_temperature w = (w : ℚ) * 0.0625 - 273.15) ∧
    decode_temperature 3086 = -80.275 ∧
    fmtF4 (decode_temperature 3086) = "-80.2750" := by
  refine ⟨fun w => rfl, by norm_num [decode_temperature], ?_⟩
  have h2 : decode_temperature 3086 * 10000 = ((-802750 : Int) : ℚ) := by
    norm_num [decode_temperature]
  have h : roundQ (decode_temperature 3086 * 10000) = -802750 := by
    rw [h2, roundQ_intCast]
  simp only [fmtF4, h]
  decide

/-- C10: with no data directory configured, write_value reports success
without performing a file operation; as a consequence, with neither data
directory nor telemetry database configured, every TAMB or in-range
CNTR reading leaves the cache entry equal to its raw value, committing
changed readings although nothing was written to any sink. -/
theorem no_sink_still_commits_cache (cfg : Config) (o : StepOracle) (cache : Cache)
    (r0 : Fin 256) (w : Nat)
    (hdat : cfg.datadir = false) (hi : cfg.influx_db = false)
    (he : r0 = CODE_TAMB ∨ (r0 = CODE_CNTR ∧ w ≤ 3000)) :
    (∀ fileOk : Bool, write_value false fileOk = (true, false)) ∧
    (processReading cfg o cache r0 w).1 r0 = w := by
  refine ⟨fun _ => rfl, ?_⟩
  have hrep : sinkReport cfg o = true := by
    simp [sinkReport, hi, hdat, write_value]
  have hel : ∃ m : Metric,
      (r0 = CODE_TAMB ∧ m = Metric.tamb) ∨
      (r0 = CODE_CNTR ∧ w ≤ 3000 ∧ m = Metric.cntr) := by
    rcases he with h | ⟨h1, h2⟩
    · exact ⟨Metric.tamb, Or.inl ⟨h, rfl⟩⟩
    · exact ⟨Metric.cntr, Or.inr ⟨h1, h2, rfl⟩⟩
  obtain ⟨m, hm⟩ := hel
  obtain ⟨-, hunch, hc⟩ := step_invariant_aux cfg o cache r0 w m hm
  by_cases hch : cache r0 = w
  · rw [hunch hch]; exact hch
  · exact ((hc hch).1).mpr hrep

/-- C10 witness: with no sink configured, a first TAMB reading of raw
100 commits 100 to the cache even though the file outcome oracle fails. -/
theorem no_sink_still_commits_cache_witness :
    (processReading ⟨false, false, false, false⟩ ⟨false, false, false⟩
      co2mon_data_init CODE_TAMB 100).1 CODE_TAMB = 100 :=
  (no_sink_still_commits_cache ⟨false, false, false, false⟩ ⟨false, false, false⟩
    co2mon_data_init CODE_TAMB 100 rfl rfl (Or.inl rfl)).2

end Co2mon
